import Mathlib

/-!
Verification development for the Surely client: a shallow embedding of the
session and payment-reconciliation core (token store, HTTP client, auth
service, subscription payment flow) together with theorems about its
behaviour. Machine times are modelled as integers (milliseconds since the
epoch, as produced by Date.now), browser storage as association lists of
string keys and string values, and JSON payloads as an inductive of
JavaScript values. Fallible operations return Option or Except values.
-/

set_option autoImplicit false

/-! ## JavaScript string and number semantics -/

/-- Prefix test on character lists, used to model the JavaScript
String.prototype.includes method. -/
def startsWithList : List Char → List Char → Bool
  | [], _ => true
  | _ :: _, [] => false
  | p :: ps, c :: cs => p == c && startsWithList ps cs

/-- Substring test on character lists. -/
def containsList : List Char → List Char → Bool
  | [], pat => pat.isEmpty
  | c :: rest, pat => startsWithList pat (c :: rest) || containsList rest pat

/-- Model of the JavaScript expression s.includes(sub). -/
def strIncludes (s sub : String) : Bool :=
  containsList s.toList sub.toList

/-- Longest leading run of decimal digits. -/
def takeDigits (l : List Char) : List Char :=
  l.takeWhile Char.isDigit

/-- Value of a digit list read in base ten. -/
def digitsToNat (l : List Char) : Nat :=
  l.foldl (fun a c => a * 10 + (c.toNat - 48)) 0

/-- Model of the JavaScript parseInt(s, 10): optional sign followed by a
digit prefix; none stands for NaN. Every comparison of NaN in the source
is false, which the callers of this function reproduce by treating none as
a failed comparison. -/
def parseIntJS (s : String) : Option Int :=
  let l := s.toList.dropWhile (fun c => c == ' ')
  match l with
  | '-' :: rest =>
    let d := takeDigits rest
    if d.isEmpty then none else some (-(digitsToNat d : Int))
  | '+' :: rest =>
    let d := takeDigits rest
    if d.isEmpty then none else some (digitsToNat d : Int)
  | _ =>
    let d := takeDigits l
    if d.isEmpty then none else some (digitsToNat d : Int)

/-! ## JavaScript values -/

/-- JavaScript values as they appear in JSON request and response bodies.
A missing property is represented by Option.none at the lookup site. -/
inductive JSValue where
  | str (s : String)
  | num (n : Int)
  | bool (b : Bool)
  | null
  | arr (items : List JSValue)
  | obj (fields : List (String × JSValue))

/-- JavaScript truthiness of a value. -/
def jsTruthy : JSValue → Bool
  | .str s => !(s == "")
  | .num n => !(n == 0)
  | .bool b => b
  | .null => false
  | .arr _ => true
  | .obj _ => true

/-- Truthiness of a possibly missing value: undefined is falsy. -/
def optTruthy : Option JSValue → Bool
  | none => false
  | some v => jsTruthy v

/-- Property lookup, as in data.field: on a non-object it yields undefined. -/
def jsGet : JSValue → String → Option JSValue
  | .obj fields, key => (fields.find? (fun p => p.1 == key)).map (fun p => p.2)
  | _, _ => none

/-- The JavaScript expression a or-else b on possibly missing values:
b is taken whenever a is falsy. -/
def jsOrVal (a b : Option JSValue) : Option JSValue :=
  if optTruthy a then a else b

/-- String coercion as performed by storage writes and string contexts.
The array case is approximated (it never occurs in the claims). -/
def jsCoerceString : JSValue → String
  | .str s => s
  | .num n => toString n
  | .bool b => if b then "true" else "false"
  | .null => "null"
  | .arr _ => ""
  | .obj _ => "[object Object]"

/-- Extraction of data.message with a fallback, as in the pattern
data-question-mark-dot-message or-else fallback from the API service. -/
def dataMessage (data : JSValue) (fallback : String) : String :=
  match jsGet data "message" with
  | some v => if jsTruthy v then jsCoerceString v else fallback
  | none => fallback

/-! ## Browser storage -/

/-- One storage tier (sessionStorage or localStorage): string keys to
string values, newest entry first. -/
abbrev Storage := List (String × String)

/-- Model of storage.getItem: the stored value or null. -/
def getItem : Storage → String → Option String
  | [], _ => none
  | (k, v) :: rest, key => if k == key then some v else getItem rest key

/-- Model of storage.removeItem. -/
def removeItem : Storage → String → Storage
  | [], _ => []
  | (k, v) :: rest, key =>
    if k == key then removeItem rest key else (k, v) :: removeItem rest key

/-- Model of storage.setItem: replaces any previous entry for the key. -/
def setItem (s : Storage) (key value : String) : Storage :=
  (key, value) :: removeItem s key

/-- Truthiness of a storage read: null and the empty string are falsy. -/
def isTruthy : Option String → Bool
  | none => false
  | some s => !(s == "")

/-- The JavaScript expression a or-else b on storage reads. -/
def jsOr (a b : Option String) : Option String :=
  if isTruthy a then a else b

/-- The browser surface the embedded code touches: the two storage tiers,
the pathname of the current page and the navigation target href. -/
structure Browser where
  sessionStore : Storage
  localStore : Storage
  pathname : String
  href : String
deriving DecidableEq

/-! ## Configuration constants, from js/config.js and unnamed/part_000 -/

def CONFIG.TOKEN_KEY : String := "__surely_auth__"

def CONFIG.TOKEN_EXPIRY_KEY : String := "__surely_auth_exp__"

def CONFIG.TOKEN_REFRESH_THRESHOLD : Int := 300000

def CONFIG.API_BASE_URL : String := "https://srv442638.hstgr.cloud"

def CONFIG.API_TIMEOUT : Nat := 30000

/-! ## SecurityManager, from js/security.js -/

/-- Lines 25 to 39 of js/security.js: store the token and its absolute
expiry in localStorage when rememberMe is set, else in sessionStorage.
Returns true on success (the storage-failure catch is not modelled). -/
def SecurityManager.storeToken (now : Int) (br : Browser) (token : String)
    (expiresIn : Int) (rememberMe : Bool) : Bool × Browser :=
  let expiryTime := toString (now + expiresIn * 1000)
  if rememberMe then
    (true, { br with localStore := setItem (setItem br.localStore CONFIG.TOKEN_KEY token) CONFIG.TOKEN_EXPIRY_KEY expiryTime })
  else
    (true, { br with sessionStore := setItem (setItem br.sessionStore CONFIG.TOKEN_KEY token) CONFIG.TOKEN_EXPIRY_KEY expiryTime })

/-- Lines 99 to 110 of js/security.js: remove token and expiry from both
tiers. -/
def SecurityManager.clearToken (br : Browser) : Browser :=
  { br with
    sessionStore := removeItem (removeItem br.sessionStore CONFIG.TOKEN_KEY) CONFIG.TOKEN_EXPIRY_KEY,
    localStore := removeItem (removeItem br.localStore CONFIG.TOKEN_KEY) CONFIG.TOKEN_EXPIRY_KEY }

/-- Lines 48 to 55 of js/security.js: read token and expiry from
sessionStorage, falling back to localStorage when the session token is
falsy. The fallback replaces both the token and the expiry. -/
def SecurityManager.readPair (br : Browser) : Option String × Option String :=
  let tokS := getItem br.sessionStore CONFIG.TOKEN_KEY
  let expS := getItem br.sessionStore CONFIG.TOKEN_EXPIRY_KEY
  if isTruthy tokS then (tokS, expS)
  else (getItem br.localStore CONFIG.TOKEN_KEY, getItem br.localStore CONFIG.TOKEN_EXPIRY_KEY)

/-- Lines 45 to 74 of js/security.js: retrieve the token; when both a
token and an expiry are found, compare Date.now() against the parsed
expiry and clear both tiers when the comparison fails (a NaN expiry also
fails the comparison and clears). Returns null in every non-token case. -/
def SecurityManager.getToken (now : Int) (br : Browser) : Option String × Browser :=
  let (token, expiry) := SecurityManager.readPair br
  if isTruthy token && isTruthy expiry then
    match parseIntJS (expiry.getD "") with
    | some expiryTime =>
      if now < expiryTime then (token, br)
      else (none, SecurityManager.clearToken br)
    | none => (none, SecurityManager.clearToken br)
  else (none, br)

/-- Lines 79 to 94 of js/security.js: read the expiry entry (session tier
preferred), and report whether the remaining time is below the refresh
threshold. The token itself is never consulted. -/
def SecurityManager.needsRefresh (now : Int) (br : Browser) : Bool :=
  let expiry := jsOr (getItem br.sessionStore CONFIG.TOKEN_EXPIRY_KEY)
    (getItem br.localStore CONFIG.TOKEN_EXPIRY_KEY)
  if isTruthy expiry then
    match parseIntJS (expiry.getD "") with
    | some expiryTime => decide (expiryTime - now < CONFIG.TOKEN_REFRESH_THRESHOLD)
    | none => false
  else false

/-- Line 115 of js/security.js. -/
def SecurityManager.isAuthenticated (now : Int) (br : Browser) : Bool × Browser :=
  let (tok, br1) := SecurityManager.getToken now br
  (tok.isSome, br1)

/-- Result record of validatePassword, lines 158 to 172 of js/security.js. -/
structure PasswordValidation where
  valid : Bool
  minLength : Bool
  hasUpper : Bool
  hasLower : Bool
  hasNumber : Bool
deriving DecidableEq

/-- Lines 158 to 172 of js/security.js: the four character-class checks
(the regexes are ASCII classes) and their conjunction. -/
def SecurityManager.validatePassword (password : String) : PasswordValidation :=
  let minLength := decide (8 ≤ password.length)
  let hasUpper := password.toList.any (fun c => decide ('A' ≤ c ∧ c ≤ 'Z'))
  let hasLower := password.toList.any (fun c => decide ('a' ≤ c ∧ c ≤ 'z'))
  let hasNumber := password.toList.any (fun c => decide ('0' ≤ c ∧ c ≤ '9'))
  { valid := minLength && hasUpper && hasLower && hasNumber
    minLength := minLength
    hasUpper := hasUpper
    hasLower := hasLower
    hasNumber := hasNumber }

/-- HTML escaping of one character, as performed by assigning textContent
to a div and reading innerHTML back (lines 122 to 128 of js/security.js). -/
def escapeChar : Char → String
  | '&' => "&amp;"
  | '<' => "&lt;"
  | '>' => "&gt;"
  | c => String.singleton c

/-- Lines 122 to 128 of js/security.js. -/
def SecurityManager.sanitizeHTML (input : String) : String :=
  String.join (input.toList.map escapeChar)

mutual

/-- The per-entry transformation of sanitizeObject, lines 135 to 143 of
js/security.js: strings are HTML-escaped, non-null objects (arrays
included, since typeof yields object for them) recurse, everything else
passes through. -/
def SecurityManager.sanitizeEntry : JSValue → JSValue
  | .str s => .str (SecurityManager.sanitizeHTML s)
  | .obj fields => .obj (SecurityManager.sanitizePairs fields)
  | .arr items => .obj (SecurityManager.sanitizeIdx 0 items)
  | .num n => .num n
  | .bool b => .bool b
  | .null => .null

/-- Object.entries iteration over an object literal. -/
def SecurityManager.sanitizePairs : List (String × JSValue) → List (String × JSValue)
  | [] => []
  | (k, v) :: rest => (k, SecurityManager.sanitizeEntry v) :: SecurityManager.sanitizePairs rest

/-- Object.entries iteration over an array: keys are the decimal index
strings. -/
def SecurityManager.sanitizeIdx : Nat → List JSValue → List (String × JSValue)
  | _, [] => []
  | i, v :: rest => (toString i, SecurityManager.sanitizeEntry v) :: SecurityManager.sanitizeIdx (i + 1) rest

end

/-- Lines 133 to 145 of js/security.js: build a fresh plain object from
the entries of the argument. On an array the result is keyed by the
decimal indices; on a primitive Object.entries is empty. -/
def SecurityManager.sanitizeObject : JSValue → JSValue
  | .obj fields => .obj (SecurityManager.sanitizePairs fields)
  | .arr items => .obj (SecurityManager.sanitizeIdx 0 items)
  | _ => .obj []

/-- The index-keyed entry list of an array, written independently of the
sanitizer: position i of the list becomes the key toString i. -/
def enumStr : Nat → List JSValue → List (String × JSValue)
  | _, [] => []
  | i, v :: rest => (toString i, v) :: enumStr (i + 1) rest

/-! ## HTTP client, from unnamed/part_006 (updated) and unnamed/part_007 (legacy) -/

/-- Outcome of one fetch attempt: an HTTP response with its parsed body,
a client-side timeout abort, or a transport failure carrying the rejection
message. -/
inductive FetchOutcome where
  | reply (status : Nat) (data : JSValue)
  | abort
  | netfail (msg : String)

/-- The error taxonomy raised by makeRequest, one constructor per throw
site. -/
inductive ApiError where
  | sessionExpired
  | forbidden (msg : String)
  | notFound (msg : String)
  | badRequest (msg : String)
  | unprocessable (msg : String)
  | serverError (msg : String)
  | requestFailed (status : Nat)
  | timeout
  | network (msg : String)

def forbiddenMsg : String := "Access forbidden. You do not have permission."

def notFoundMsg : String := "Resource not found."

def badRequestMsg : String := "Invalid request. Please check your input."

def unprocessableMsg : String := "Validation failed. Please check your input."

def serverErrorMsg : String := "Server error. Please try again later."

def sessionExpiredMsg : String := "Session expired. Please login again."

def sessionExpiredMarker : String := "Session expired"

def timeoutMsg : String := "Request timeout. Please check your connection."

/-- The message property of each thrown Error, consulted by the catch
block of makeRequest. -/
def errMessage : ApiError → String
  | .sessionExpired => sessionExpiredMsg
  | .forbidden m => m
  | .notFound m => m
  | .badRequest m => m
  | .unprocessable m => m
  | .serverError m => m
  | .requestFailed status => "Request failed with status " ++ toString status
  | .timeout => timeoutMsg
  | .network m => m

/-- The resolved value of makeRequest on a 2xx response. -/
structure ApiSuccess where
  data : JSValue
  status : Nat

/-- Observable result of one makeRequest call: the settled value, the
browser state after side effects, the backoff delays awaited in order,
and the number of fetch calls performed. -/
structure ReqResult where
  result : Except ApiError ApiSuccess
  browser : Browser
  delaysMs : List Nat
  fetches : Nat

def APIService.retryAttempts : Nat := 3

def APIService.retryDelay : Nat := 1000

/-- Lines 73 to 75 of unnamed/part_006: a route is protected when the
pathname mentions profile, subscription or dashboard. -/
def APIService.isProtectedRoute (pathname : String) : Bool :=
  strIncludes pathname "profile" || strIncludes pathname "subscription" ||
    strIncludes pathname "dashboard"

/-- Retry bookkeeping: the delay of retryDelay times (retryCount plus one)
milliseconds awaited before the recursive call, whose result is adopted
unchanged (the recursive call is returned without await, so its rejection
bypasses the catch block of the current activation). -/
def APIService.withRetry (sub : ReqResult) (retryCount : Nat) : ReqResult :=
  { result := sub.result, browser := sub.browser,
    delaysMs := APIService.retryDelay * (retryCount + 1) :: sub.delaysMs,
    fetches := sub.fetches + 1 }

/-- Lines 124 to 138 of unnamed/part_006: the catch block. A thrown
classification error from the same activation lands here and is retried
with linear backoff while attempts remain, unless its message mentions
session expiry. -/
def APIService.caughtStep (sub : ReqResult) (br : Browser) (retryCount : Nat)
    (e : ApiError) : ReqResult :=
  if retryCount < APIService.retryAttempts ∧
      strIncludes (errMessage e) sessionExpiredMarker = false then
    APIService.withRetry sub retryCount
  else { result := .error e, browser := br, delaysMs := [], fetches := 1 }

/-- One classified fetch attempt of unnamed/part_006 with no retry budget:
every thrown error surfaces from the catch unchanged. Used for the
fuel-exhausted case, which the top-level entry point never reaches. -/
def APIService.surfaceStep (br : Browser) (outcome : FetchOutcome) : ReqResult :=
  match outcome with
  | .abort => { result := .error .timeout, browser := br, delaysMs := [], fetches := 1 }
  | .netfail msg => { result := .error (.network msg), browser := br, delaysMs := [], fetches := 1 }
  | .reply status data =>
    if status == 401 then
      let br1 := if APIService.isProtectedRoute br.pathname then
          { SecurityManager.clearToken br with href := "./login.html" } else br
      { result := .error .sessionExpired, browser := br1, delaysMs := [], fetches := 1 }
    else if status == 403 then
      { result := .error (.forbidden (dataMessage data forbiddenMsg)), browser := br, delaysMs := [], fetches := 1 }
    else if status == 404 then
      { result := .error (.notFound (dataMessage data notFoundMsg)), browser := br, delaysMs := [], fetches := 1 }
    else if status == 400 then
      { result := .error (.badRequest (dataMessage data badRequestMsg)), browser := br, delaysMs := [], fetches := 1 }
    else if status == 422 then
      { result := .error (.unprocessable (dataMessage data unprocessableMsg)), browser := br, delaysMs := [], fetches := 1 }
    else if 500 ≤ status then
      { result := .error (.serverError (dataMessage data serverErrorMsg)), browser := br, delaysMs := [], fetches := 1 }
    else if ¬(200 ≤ status ∧ status < 300) then
      { result := .error (.requestFailed status), browser := br, delaysMs := [], fetches := 1 }
    else
      { result := .ok { data := data, status := status }, browser := br, delaysMs := [], fetches := 1 }

/-- Lines 41 to 139 of unnamed/part_006, makeRequest. The fuel argument
only makes the bounded recursion structural; the entry point passes
retryAttempts plus one minus retryCount, which the guard on retryCount
never exhausts. Each activation performs exactly one fetch, indexed by its
retryCount. On 401 the token is cleared and the location set to the login
page only on protected routes, and the thrown session-expired error is
never retried by the catch. Statuses 403, 404, 400 and 422 throw, and the
throw lands in the same catch, which retries while attempts remain. On a
status of 500 or more the activation delays and adopts the result of the
recursive call without await, so exactly retryAttempts retries happen in
total. -/
def APIService.makeRequestAux (responses : Nat → FetchOutcome) (br : Browser) :
    Nat → Nat → ReqResult
  | 0, retryCount => APIService.surfaceStep br (responses retryCount)
  | fuel + 1, retryCount =>
    let sub := APIService.makeRequestAux responses br fuel (retryCount + 1)
    match responses retryCount with
    | .abort => { result := .error .timeout, browser := br, delaysMs := [], fetches := 1 }
    | .netfail msg => APIService.caughtStep sub br retryCount (.network msg)
    | .reply status data =>
      if status == 401 then
        let br1 := if APIService.isProtectedRoute br.pathname then
            { SecurityManager.clearToken br with href := "./login.html" } else br
        { result := .error .sessionExpired, browser := br1, delaysMs := [], fetches := 1 }
      else if status == 403 then
        APIService.caughtStep sub br retryCount (.forbidden (dataMessage data forbiddenMsg))
      else if status == 404 then
        APIService.caughtStep sub br retryCount (.notFound (dataMessage data notFoundMsg))
      else if status == 400 then
        APIService.caughtStep sub br retryCount (.badRequest (dataMessage data badRequestMsg))
      else if status == 422 then
        APIService.caughtStep sub br retryCount (.unprocessable (dataMessage data unprocessableMsg))
      else if 500 ≤ status then
        (if retryCount < APIService.retryAttempts then
          APIService.withRetry sub retryCount
        else
          APIService.caughtStep sub br retryCount (.serverError (dataMessage data serverErrorMsg)))
      else if ¬(200 ≤ status ∧ status < 300) then
        APIService.caughtStep sub br retryCount (.requestFailed status)
      else
        { result := .ok { data := data, status := status }, browser := br, delaysMs := [], fetches := 1 }

/-- The makeRequest entry point of unnamed/part_006. -/
def APIService.makeRequest (responses : Nat → FetchOutcome) (br : Browser)
    (retryCount : Nat) : ReqResult :=
  APIService.makeRequestAux responses br (APIService.retryAttempts + 1 - retryCount) retryCount

/-- An outgoing request as assembled by the bodied verbs of the API
service (headers are orthogonal to the claims and omitted). -/
structure OutgoingRequest where
  url : String
  method : String
  body : JSValue

/-- Lines 164 to 176 of unnamed/part_006: POST sanitizes the body before
serialization. -/
def APIService.post (endpoint : String) (data : JSValue) : OutgoingRequest :=
  { url := CONFIG.API_BASE_URL ++ endpoint, method := "POST",
    body := SecurityManager.sanitizeObject data }

/-- Lines 181 to 192 of unnamed/part_006. -/
def APIService.put (endpoint : String) (data : JSValue) : OutgoingRequest :=
  { url := CONFIG.API_BASE_URL ++ endpoint, method := "PUT",
    body := SecurityManager.sanitizeObject data }

/-- Lines 197 to 208 of unnamed/part_006. -/
def APIService.patch (endpoint : String) (data : JSValue) : OutgoingRequest :=
  { url := CONFIG.API_BASE_URL ++ endpoint, method := "PATCH",
    body := SecurityManager.sanitizeObject data }

/-- One classified fetch attempt of unnamed/part_007 with no retry
budget. The 401 branch clears the token and redirects unconditionally. -/
def LegacyAPIService.surfaceStep (br : Browser) (outcome : FetchOutcome) : ReqResult :=
  match outcome with
  | .abort => { result := .error .timeout, browser := br, delaysMs := [], fetches := 1 }
  | .netfail msg => { result := .error (.network msg), browser := br, delaysMs := [], fetches := 1 }
  | .reply status data =>
    if status == 401 then
      { result := .error .sessionExpired,
        browser := { SecurityManager.clearToken br with href := "/pages/login.html" },
        delaysMs := [], fetches := 1 }
    else if status == 403 then
      { result := .error (.forbidden forbiddenMsg), browser := br, delaysMs := [], fetches := 1 }
    else if status == 404 then
      { result := .error (.notFound notFoundMsg), browser := br, delaysMs := [], fetches := 1 }
    else if 500 ≤ status then
      { result := .error (.serverError serverErrorMsg), browser := br, delaysMs := [], fetches := 1 }
    else if ¬(200 ≤ status ∧ status < 300) then
      { result := .error (.requestFailed status), browser := br, delaysMs := [], fetches := 1 }
    else
      { result := .ok { data := data, status := status }, browser := br, delaysMs := [], fetches := 1 }

/-- Lines 39 to 111 of unnamed/part_007, makeRequest of the legacy API
service: same retry scheme and catch block as the updated one (the
constants and the catch are identical in the two files, so caughtStep and
withRetry are shared), but the 401 branch clears the token and navigates
to the login page with no protected-route test, and there are no 400 or
422 branches. -/
def LegacyAPIService.makeRequestAux (responses : Nat → FetchOutcome) (br : Browser) :
    Nat → Nat → ReqResult
  | 0, retryCount => LegacyAPIService.surfaceStep br (responses retryCount)
  | fuel + 1, retryCount =>
    let sub := LegacyAPIService.makeRequestAux responses br fuel (retryCount + 1)
    match responses retryCount with
    | .abort => { result := .error .timeout, browser := br, delaysMs := [], fetches := 1 }
    | .netfail msg => APIService.caughtStep sub br retryCount (.network msg)
    | .reply status data =>
      if status == 401 then
        { result := .error .sessionExpired,
          browser := { SecurityManager.clearToken br with href := "/pages/login.html" },
          delaysMs := [], fetches := 1 }
      else if status == 403 then
        APIService.caughtStep sub br retryCount (.forbidden forbiddenMsg)
      else if status == 404 then
        APIService.caughtStep sub br retryCount (.notFound notFoundMsg)
      else if 500 ≤ status then
        (if retryCount < APIService.retryAttempts then
          APIService.withRetry sub retryCount
        else
          APIService.caughtStep sub br retryCount (.serverError serverErrorMsg))
      else if ¬(200 ≤ status ∧ status < 300) then
        APIService.caughtStep sub br retryCount (.requestFailed status)
      else
        { result := .ok { data := data, status := status }, browser := br, delaysMs := [], fetches := 1 }

/-- The makeRequest entry point of unnamed/part_007. -/
def LegacyAPIService.makeRequest (responses : Nat → FetchOutcome) (br : Browser)
    (retryCount : Nat) : ReqResult :=
  LegacyAPIService.makeRequestAux responses br (APIService.retryAttempts + 1 - retryCount) retryCount

/-! ## AuthService, from services/auth.service.js -/

/-- The detail payload of an authStateChanged browser event. -/
structure AuthEvent where
  user : Option JSValue
  authenticated : Bool

/-- The value of data.expiresIn or-else 3600 in handleAuthSuccess and
refreshToken (a non-numeric truthy expiresIn, which JavaScript would
coerce during the multiplication, is not modelled). -/
def AuthService.refreshExpiresIn (data : JSValue) : Int :=
  match jsGet data "expiresIn" with
  | some (.num n) => if n == 0 then 3600 else n
  | _ => 3600

/-- Lines 188 to 204 of services/auth.service.js: refreshToken. On a
successful response carrying a truthy token, the token is stored with
rememberMe set exactly when localStorage currently holds a token entry,
and true is returned; every other outcome, a thrown error included,
returns false and leaves the state unchanged. -/
def AuthService.refreshToken (now : Int) (resp : Except ApiError JSValue)
    (br : Browser) : Bool × Browser :=
  match resp with
  | .error _ => (false, br)
  | .ok data =>
    match jsGet data "token" with
    | some tokenVal =>
      if jsTruthy tokenVal then
        let rememberMe := (getItem br.localStore CONFIG.TOKEN_KEY).isSome
        (true, (SecurityManager.storeToken now br (jsCoerceString tokenVal)
          (AuthService.refreshExpiresIn data) rememberMe).2)
      else (false, br)
    | none => (false, br)

/-- Result of a logout call: final browser state, cached user, and the
events dispatched. -/
structure LogoutResult where
  browser : Browser
  currentUser : Option JSValue
  events : List AuthEvent

/-- Lines 138 to 169 of services/auth.service.js: logout. The logout
endpoint is called only when a token is present, its outcome (modelled by
an arbitrary browser transformer, since makeRequest can itself mutate the
browser) is ignored, and then the token store is cleared, the cached user
dropped, an authStateChanged event with authenticated false dispatched,
and the location set to the login page. -/
def AuthService.logout (now : Int) (apiCall : Browser → Except ApiError JSValue × Browser)
    (br : Browser) (_currentUser : Option JSValue) : LogoutResult :=
  let (tok, br1) := SecurityManager.getToken now br
  let br2 := if tok.isSome then (apiCall br1).2 else br1
  let br3 := SecurityManager.clearToken br2
  { browser := { br3 with href := "/pages/login.html" },
    currentUser := none,
    events := [{ user := none, authenticated := false }] }

/-- Lines 181 to 183 of services/auth.service.js: the stricter
authenticated check, a stored token and a cached user. -/
def AuthService.isAuthenticated (now : Int) (br : Browser)
    (currentUser : Option JSValue) : Bool × Browser :=
  let (tok, br1) := SecurityManager.getToken now br
  (tok.isSome && currentUser.isSome, br1)

/-! ## Subscription payment flow, from js/subscription.js (updated) and
unnamed/part_005 (legacy) -/

def Subscription.PENDING_REF_KEY : String := "pending_payment_reference"

def Subscription.PENDING_PLAN_KEY : String := "pending_payment_plan"

/-- The payment initiation request body. -/
structure InitRequest where
  plan : String
  country_code : String
  enable_auto_renew : Bool
deriving DecidableEq

/-- Model of the JavaScript toLowerCase over the ASCII inputs this flow
handles. -/
def jsToLower (s : String) : String :=
  String.mk (s.toList.map Char.toLower)

/-- Model of the JavaScript toUpperCase over the ASCII inputs this flow
handles. -/
def jsToUpper (s : String) : String :=
  String.mk (s.toList.map Char.toUpper)

/-- Lines 296 to 300 of js/subscription.js: the request body of the
updated initiatePayment, with the plan lowercased, the country uppercased
and the auto-renew flag coerced to a boolean (the model parameter is
already a boolean). -/
def Subscription.initiatePaymentBody (plan currentCountry : String)
    (enableAutoRenew : Bool) : InitRequest :=
  { plan := jsToLower plan, country_code := jsToUpper currentCountry,
    enable_auto_renew := enableAutoRenew }

/-- Observable outcome of the response handling of initiatePayment:
the sessionStorage tier afterwards, the scheduled navigation (target and
delay), and the thrown error message if any. -/
structure InitOutcome where
  storage : Storage
  navTarget : Option String
  navDelayMs : Nat
  errorMsg : Option String
deriving DecidableEq

/-- Lines 314 to 354 of js/subscription.js: handling of the initiation
response. Both an authorization URL (under either alias) and a reference
(under either alias) are required; a missing one throws before anything
is persisted. When both are present the pending payment reference and
plan are written to sessionStorage and a navigation to the authorization
URL is scheduled after one second. A thrown or failed call changes
nothing. -/
def Subscription.initiatePaymentOnResponse (resp : Except ApiError JSValue)
    (plan : String) (store : Storage) : InitOutcome :=
  match resp with
  | .error e => { storage := store, navTarget := none, navDelayMs := 0, errorMsg := some (errMessage e) }
  | .ok data =>
    if jsTruthy data then
      let authUrl := jsOrVal (jsGet data "authorization_url") (jsGet data "authorizationUrl")
      let reference := jsOrVal (jsGet data "reference") (jsGet data "payment_reference")
      if optTruthy authUrl = false then
        { storage := store, navTarget := none, navDelayMs := 0,
          errorMsg := some "No authorization URL received from payment provider" }
      else if optTruthy reference = false then
        { storage := store, navTarget := none, navDelayMs := 0,
          errorMsg := some "No payment reference received" }
      else
        { storage := setItem (setItem store Subscription.PENDING_REF_KEY
              (jsCoerceString (reference.getD .null))) Subscription.PENDING_PLAN_KEY plan,
          navTarget := some (jsCoerceString (authUrl.getD .null)),
          navDelayMs := 1000, errorMsg := none }
    else
      { storage := store, navTarget := none, navDelayMs := 0,
        errorMsg := some (dataMessage data "Payment initiation failed") }

/-- Lines 242 to 246 of unnamed/part_005: the legacy initiatePayment body
sends the plan and country exactly as given. -/
def Subscription.legacyInitiatePaymentBody (plan currentCountry : String)
    (enableAutoRenew : Bool) : InitRequest :=
  { plan := plan, country_code := currentCountry,
    enable_auto_renew := enableAutoRenew }

/-- Lines 257 to 281 of unnamed/part_005: the legacy response handling
checks only the authorization URL. The reference is written to
sessionStorage unchecked, so a missing reference is stored as the string
coercion of undefined, and the navigation still happens. -/
def Subscription.legacyInitiatePaymentOnResponse (resp : Except ApiError JSValue)
    (plan : String) (store : Storage) : InitOutcome :=
  match resp with
  | .error e => { storage := store, navTarget := none, navDelayMs := 0, errorMsg := some (errMessage e) }
  | .ok data =>
    if jsTruthy data then
      let authUrl := jsGet data "authorization_url"
      if optTruthy authUrl = false then
        { storage := store, navTarget := none, navDelayMs := 0,
          errorMsg := some "No authorization URL received" }
      else
        { storage := setItem (setItem store Subscription.PENDING_REF_KEY
              (match jsGet data "reference" with
               | some v => jsCoerceString v
               | none => "undefined")) Subscription.PENDING_PLAN_KEY plan,
          navTarget := some (jsCoerceString (authUrl.getD .null)),
          navDelayMs := 1000, errorMsg := none }
    else
      { storage := store, navTarget := none, navDelayMs := 0,
        errorMsg := some "Payment initiation failed" }

/-- The view rendered into the payment status container. -/
inductive PayView where
  | success (msg : String)
  | processing (msg : String)
  | failed (msg : String)
  | verifyError

/-- Observable outcome of one verification round of verifyPaymentStatus:
the rendered view, the sessionStorage tier afterwards, the delay of the
rescheduled poll if one was scheduled, the fixed grace delay awaited
before the status call, and whether the subscription view was reloaded. -/
structure VerifyStep where
  view : PayView
  storage : Storage
  nextPollMs : Option Nat
  graceDelayMs : Nat
  reloadedSubscription : Bool

/-- Lines 419 to 455 of js/subscription.js (and, identically, lines 331
to 381 of unnamed/part_005): one round of verifyPaymentStatus. After a
two-second grace delay the status endpoint is consulted. A status of
success renders success, deletes both pending payment entries and reloads
the subscription view; pending renders the processing view and schedules
another round after five seconds without touching storage; any other
response value renders failure and deletes both entries. A thrown
transport or classification error, or a falsy response payload, renders
the verification-error view and leaves storage unchanged. -/
def Subscription.verifyPaymentStatus (resp : Except ApiError JSValue)
    (store : Storage) : VerifyStep :=
  match resp with
  | .error _ =>
    { view := .verifyError, storage := store, nextPollMs := none,
      graceDelayMs := 2000, reloadedSubscription := false }
  | .ok data =>
    if jsTruthy data then
      match jsGet data "status" with
      | some (.str s) =>
        if s == "success" then
          { view := .success (SecurityManager.sanitizeHTML
              (dataMessage data "Your subscription has been activated.")),
            storage := removeItem (removeItem store Subscription.PENDING_REF_KEY)
              Subscription.PENDING_PLAN_KEY,
            nextPollMs := none, graceDelayMs := 2000, reloadedSubscription := true }
        else if s == "pending" then
          { view := .processing (SecurityManager.sanitizeHTML
              (dataMessage data "Waiting for payment confirmation...")),
            storage := store, nextPollMs := some 5000, graceDelayMs := 2000,
            reloadedSubscription := false }
        else
          { view := .failed (SecurityManager.sanitizeHTML
              (dataMessage data "Your payment could not be processed.")),
            storage := removeItem (removeItem store Subscription.PENDING_REF_KEY)
              Subscription.PENDING_PLAN_KEY,
            nextPollMs := none, graceDelayMs := 2000, reloadedSubscription := false }
      | _ =>
        { view := .failed (SecurityManager.sanitizeHTML
            (dataMessage data "Your payment could not be processed.")),
          storage := removeItem (removeItem store Subscription.PENDING_REF_KEY)
            Subscription.PENDING_PLAN_KEY,
          nextPollMs := none, graceDelayMs := 2000, reloadedSubscription := false }
    else
      { view := .verifyError, storage := store, nextPollMs := none,
        graceDelayMs := 2000, reloadedSubscription := false }

/-- The description of isNearExpiry in section 4.1 of the specification,
following its words rather than the source: true exactly when a stored,
non-expired token has a remaining lifetime below the threshold. Written
for comparison with SecurityManager.needsRefresh. -/
def spec_isNearExpiry (now threshold : Int) (br : Browser) : Bool :=
  match SecurityManager.readPair br with
  | (some tok, some e) =>
    if tok == "" then false
    else
      match parseIntJS e with
      | some n => decide (now < n) && decide (n - now < threshold)
      | none => false
  | _ => false

/-! ## Storage lemmas -/

theorem getItem_removeItem_self (s : Storage) (k : String) :
    getItem (removeItem s k) k = none := by
  induction s with
  | nil => rfl
  | cons p rest ih =>
    obtain ⟨a, b⟩ := p
    by_cases h : a = k
    · simp [removeItem, h, ih]
    · simp [removeItem, getItem, h, ih]

theorem getItem_removeItem_of_ne (s : Storage) (k key : String) (h : key ≠ k) :
    getItem (removeItem s k) key = getItem s key := by
  induction s with
  | nil => rfl
  | cons p rest ih =>
    obtain ⟨a, b⟩ := p
    by_cases ha : a = k
    · subst ha
      simp [removeItem, getItem, ih, Ne.symm h]
    · by_cases hk : a = key <;> simp [removeItem, getItem, ha, hk, ih, h]

theorem clearToken_residual (br : Browser) :
    getItem (SecurityManager.clearToken br).sessionStore CONFIG.TOKEN_KEY = none
  ∧ getItem (SecurityManager.clearToken br).sessionStore CONFIG.TOKEN_EXPIRY_KEY = none
  ∧ getItem (SecurityManager.clearToken br).localStore CONFIG.TOKEN_KEY = none
  ∧ getItem (SecurityManager.clearToken br).localStore CONFIG.TOKEN_EXPIRY_KEY = none := by
  have hne : CONFIG.TOKEN_KEY ≠ CONFIG.TOKEN_EXPIRY_KEY := by decide
  refine ⟨?_, ?_, ?_, ?_⟩ <;>
    simp [SecurityManager.clearToken, getItem_removeItem_self, getItem_removeItem_of_ne, hne]

/-- Claim C5: for every stored token whose expiry instant has passed (now
at or beyond the stored expiry), getToken returns absent, deletes the
token and expiry entries from both tiers as a side effect, and leaves no
residual entry in either tier. (The never-throws part is inherent to the
embedding: getToken is total.) -/
theorem c5_expired_read (now : Int) (br : Browser) (tok e : String) (n : Int)
    (hread : SecurityManager.readPair br = (some tok, some e))
    (htok : tok ≠ "") (he : e ≠ "")
    (hparse : parseIntJS e = some n) (hle : n ≤ now) :
    SecurityManager.getToken now br = (none, SecurityManager.clearToken br)
  ∧ getItem (SecurityManager.getToken now br).2.sessionStore CONFIG.TOKEN_KEY = none
  ∧ getItem (SecurityManager.getToken now br).2.sessionStore CONFIG.TOKEN_EXPIRY_KEY = none
  ∧ getItem (SecurityManager.getToken now br).2.localStore CONFIG.TOKEN_KEY = none
  ∧ getItem (SecurityManager.getToken now br).2.localStore CONFIG.TOKEN_EXPIRY_KEY = none := by
  have hlt : ¬ now < n := by omega
  have hmain : SecurityManager.getToken now br = (none, SecurityManager.clearToken br) := by
    unfold SecurityManager.getToken
    rw [hread]
    simp [isTruthy, htok, he, hparse, hlt]
  refine ⟨hmain, ?_, ?_, ?_, ?_⟩ <;> rw [hmain] <;>
    simp [clearToken_residual br |>.1, clearToken_residual br |>.2.1,
      clearToken_residual br |>.2.2.1, clearToken_residual br |>.2.2.2]

/-- Witness for C5 at a concrete expired state: the token and expiry are
stored in the ephemeral tier and the read happens exactly at the expiry
instant. -/
theorem c5_expired_read_witness :
    SecurityManager.getToken 100
      ⟨[(CONFIG.TOKEN_KEY, "tok"), (CONFIG.TOKEN_EXPIRY_KEY, "100")], [], "/profile.html", ""⟩ =
      (none, SecurityManager.clearToken
        ⟨[(CONFIG.TOKEN_KEY, "tok"), (CONFIG.TOKEN_EXPIRY_KEY, "100")], [], "/profile.html", ""⟩) :=
  (c5_expired_read 100
    ⟨[(CONFIG.TOKEN_KEY, "tok"), (CONFIG.TOKEN_EXPIRY_KEY, "100")], [], "/profile.html", ""⟩
    "tok" "100" 100 rfl (by decide) (by decide) rfl (by decide)).1

/-- Claim C6 counterexample: a state holding only an already-passed
expiry entry and no token at all. needsRefresh answers true there, while
the claimed characterisation (a stored, non-expired token with remaining
time below the threshold) is false: no token is stored. -/
theorem c6_near_expiry_counterexample :
    SecurityManager.needsRefresh 1000
      ⟨[(CONFIG.TOKEN_EXPIRY_KEY, "500")], [], "", ""⟩ = true
  ∧ spec_isNearExpiry 1000 CONFIG.TOKEN_REFRESH_THRESHOLD
      ⟨[(CONFIG.TOKEN_EXPIRY_KEY, "500")], [], "", ""⟩ = false
  ∧ (SecurityManager.readPair ⟨[(CONFIG.TOKEN_EXPIRY_KEY, "500")], [], "", ""⟩).1 = none := by
  refine ⟨by decide, by decide, by decide⟩

/-- Claim C6 as amended: needsRefresh is true exactly when an expiry
entry is stored (ephemeral tier preferred, persistent tier as fallback)
that parses to a value whose distance from now is below the threshold,
regardless of whether any token is stored or whether the entry has
already passed; at the thresholds of the claim, 299999 milliseconds
remaining answers true, 300001 false, and an empty store false. -/
theorem c6_near_expiry_amended :
    (∀ (now : Int) (br : Browser),
      SecurityManager.needsRefresh now br = true ↔
        ∃ s n, jsOr (getItem br.sessionStore CONFIG.TOKEN_EXPIRY_KEY)
            (getItem br.localStore CONFIG.TOKEN_EXPIRY_KEY) = some s ∧ s ≠ "" ∧
          parseIntJS s = some n ∧ n - now < CONFIG.TOKEN_REFRESH_THRESHOLD)
  ∧ SecurityManager.needsRefresh 0 ⟨[(CONFIG.TOKEN_EXPIRY_KEY, "299999")], [], "", ""⟩ = true
  ∧ SecurityManager.needsRefresh 0 ⟨[(CONFIG.TOKEN_EXPIRY_KEY, "300001")], [], "", ""⟩ = false
  ∧ SecurityManager.needsRefresh 0 ⟨[], [], "", ""⟩ = false := by
  refine ⟨?_, by decide, by decide, by decide⟩
  intro now br
  unfold SecurityManager.needsRefresh
  rcases hE : jsOr (getItem br.sessionStore CONFIG.TOKEN_EXPIRY_KEY)
      (getItem br.localStore CONFIG.TOKEN_EXPIRY_KEY) with _ | s
  · simp [isTruthy]
  · by_cases hs : s = ""
    · subst hs
      simp [isTruthy]
    · rcases hP : parseIntJS s with _ | n
      · simp [isTruthy, hs, hP]
      · simp [isTruthy, hs, hP]

/-- Claim C7 counterexample: both tiers are populated (the stale
persistent entry the specification itself flags as the tier leak), the
current session per getToken is the ephemeral-tier token A, yet a
successful refresh writes the new token to the persistent tier, so a
subsequent read still returns A. -/
theorem c7_refresh_tier_counterexample :
    (SecurityManager.getToken 0
      ⟨[(CONFIG.TOKEN_KEY, "A"), (CONFIG.TOKEN_EXPIRY_KEY, "999999999")],
        [(CONFIG.TOKEN_KEY, "B"), (CONFIG.TOKEN_EXPIRY_KEY, "1")], "", ""⟩).1 = some "A"
  ∧ (AuthService.refreshToken 0
      (.ok (JSValue.obj [("token", JSValue.str "NEW"), ("expiresIn", JSValue.num 3600)]))
      ⟨[(CONFIG.TOKEN_KEY, "A"), (CONFIG.TOKEN_EXPIRY_KEY, "999999999")],
        [(CONFIG.TOKEN_KEY, "B"), (CONFIG.TOKEN_EXPIRY_KEY, "1")], "", ""⟩).1 = true
  ∧ getItem (AuthService.refreshToken 0
      (.ok (JSValue.obj [("token", JSValue.str "NEW"), ("expiresIn", JSValue.num 3600)]))
      ⟨[(CONFIG.TOKEN_KEY, "A"), (CONFIG.TOKEN_EXPIRY_KEY, "999999999")],
        [(CONFIG.TOKEN_KEY, "B"), (CONFIG.TOKEN_EXPIRY_KEY, "1")], "", ""⟩).2.sessionStore
      CONFIG.TOKEN_KEY = some "A"
  ∧ getItem (AuthService.refreshToken 0
      (.ok (JSValue.obj [("token", JSValue.str "NEW"), ("expiresIn", JSValue.num 3600)]))
      ⟨[(CONFIG.TOKEN_KEY, "A"), (CONFIG.TOKEN_EXPIRY_KEY, "999999999")],
        [(CONFIG.TOKEN_KEY, "B"), (CONFIG.TOKEN_EXPIRY_KEY, "1")], "", ""⟩).2.localStore
      CONFIG.TOKEN_KEY = some "NEW"
  ∧ (SecurityManager.getToken 0 (AuthService.refreshToken 0
      (.ok (JSValue.obj [("token", JSValue.str "NEW"), ("expiresIn", JSValue.num 3600)]))
      ⟨[(CONFIG.TOKEN_KEY, "A"), (CONFIG.TOKEN_EXPIRY_KEY, "999999999")],
        [(CONFIG.TOKEN_KEY, "B"), (CONFIG.TOKEN_EXPIRY_KEY, "1")], "", ""⟩).2).1 = some "A" := by
  refine ⟨rfl, rfl, rfl, rfl, rfl⟩

/-- Claim C7 as amended: a successful refresh (a response whose token
field is a truthy string) stores the new token with rememberMe set
exactly when the persistent tier currently holds a token entry, and
returns true; any failed response returns false and changes nothing. The
tier chosen therefore agrees with the current session exactly when only
one tier is populated: with no persistent token the persistent tier is
untouched, with one the ephemeral tier is untouched. -/
theorem c7_refresh_tier_amended (now : Int) (br : Browser) (data : JSValue)
    (t : String) (e : ApiError)
    (htok : jsGet data "token" = some (JSValue.str t)) (ht : t ≠ "") :
    AuthService.refreshToken now (.ok data) br =
      (true, (SecurityManager.storeToken now br t (AuthService.refreshExpiresIn data)
        ((getItem br.localStore CONFIG.TOKEN_KEY).isSome)).2)
  ∧ AuthService.refreshToken now (.error e) br = (false, br)
  ∧ ((getItem br.localStore CONFIG.TOKEN_KEY).isSome = false →
      (AuthService.refreshToken now (.ok data) br).2.localStore = br.localStore)
  ∧ ((getItem br.localStore CONFIG.TOKEN_KEY).isSome = true →
      (AuthService.refreshToken now (.ok data) br).2.sessionStore = br.sessionStore) := by
  have hmain : AuthService.refreshToken now (.ok data) br =
      (true, (SecurityManager.storeToken now br t (AuthService.refreshExpiresIn data)
        ((getItem br.localStore CONFIG.TOKEN_KEY).isSome)).2) := by
    simp [AuthService.refreshToken, htok, jsTruthy, ht, jsCoerceString]
  refine ⟨hmain, rfl, ?_, ?_⟩
  · intro h
    rw [hmain]
    simp [SecurityManager.storeToken, h]
  · intro h
    rw [hmain]
    simp [SecurityManager.storeToken, h]

/-- Witness for C7 as amended: a refresh against an empty store succeeds
and stores ephemerally. -/
theorem c7_refresh_tier_amended_witness :
    AuthService.refreshToken 0 (.ok (JSValue.obj [("token", JSValue.str "T")]))
      ⟨[], [], "", ""⟩ =
      (true, (SecurityManager.storeToken 0 ⟨[], [], "", ""⟩ "T"
        (AuthService.refreshExpiresIn (JSValue.obj [("token", JSValue.str "T")]))
        ((getItem (⟨[], [], "", ""⟩ : Browser).localStore CONFIG.TOKEN_KEY).isSome)).2) :=
  (c7_refresh_tier_amended 0 ⟨[], [], "", ""⟩
    (JSValue.obj [("token", JSValue.str "T")]) "T" .timeout rfl (by decide)).1

/-- Claim C8: logout, whatever the outcome of the best-effort network
call (modelled as an arbitrary browser transformer, so even one that
mutates storage), leaves no token entry in either tier, caches no user,
emits exactly one authStateChanged notification with authenticated false,
sets the location to the login page, and leaves isAuthenticated false. -/
theorem c8_logout_resilience (now : Int)
    (apiCall : Browser → Except ApiError JSValue × Browser)
    (br : Browser) (user : Option JSValue) :
    getItem (AuthService.logout now apiCall br user).browser.sessionStore CONFIG.TOKEN_KEY = none
  ∧ getItem (AuthService.logout now apiCall br user).browser.sessionStore CONFIG.TOKEN_EXPIRY_KEY = none
  ∧ getItem (AuthService.logout now apiCall br user).browser.localStore CONFIG.TOKEN_KEY = none
  ∧ getItem (AuthService.logout now apiCall br user).browser.localStore CONFIG.TOKEN_EXPIRY_KEY = none
  ∧ (AuthService.logout now apiCall br user).browser.href = "/pages/login.html"
  ∧ (AuthService.logout now apiCall br user).currentUser = none
  ∧ (AuthService.logout now apiCall br user).events = [{ user := none, authenticated := false }]
  ∧ (AuthService.isAuthenticated now (AuthService.logout now apiCall br user).browser
      (AuthService.logout now apiCall br user).currentUser).1 = false := by
  have hne : CONFIG.TOKEN_KEY ≠ CONFIG.TOKEN_EXPIRY_KEY := by decide
  rcases hg : SecurityManager.getToken now br with ⟨tok, br1⟩
  have hbrowser : (AuthService.logout now apiCall br user).browser =
      { SecurityManager.clearToken (if tok.isSome then (apiCall br1).2 else br1) with
        href := "/pages/login.html" } := by
    simp [AuthService.logout, hg]
  have hcleared := clearToken_residual (if tok.isSome then (apiCall br1).2 else br1)
  have huser : (AuthService.logout now apiCall br user).currentUser = none := by
    simp [AuthService.logout, hg]
  refine ⟨?_, ?_, ?_, ?_, ?_, huser, ?_, ?_⟩
  · rw [hbrowser]; exact hcleared.1
  · rw [hbrowser]; exact hcleared.2.1
  · rw [hbrowser]; exact hcleared.2.2.1
  · rw [hbrowser]; exact hcleared.2.2.2
  · rw [hbrowser]
  · simp [AuthService.logout, hg]
  · rw [huser]
    rcases h2 : SecurityManager.getToken now (AuthService.logout now apiCall br user).browser
      with ⟨t2, b2⟩
    simp [AuthService.isAuthenticated, h2]

/-- Claim C9 counterexample: the password abc is not reported invalid on
all four checks, because its hasLower check passes. -/
theorem c9_password_counterexample :
    (SecurityManager.validatePassword "abc").hasLower = true
  ∧ (SecurityManager.validatePassword "abc").valid = false := by
  refine ⟨by decide, by decide⟩

/-- Claim C9 as amended: abc fails minLength, hasUpper and hasNumber
(and is invalid overall) but passes hasLower; Abcdefg1 passes all four
checks and is valid. -/
theorem c9_password_amended :
    SecurityManager.validatePassword "abc" =
      { valid := false, minLength := false, hasUpper := false, hasLower := true, hasNumber := false }
  ∧ SecurityManager.validatePassword "Abcdefg1" =
      { valid := true, minLength := true, hasUpper := true, hasLower := true, hasNumber := true } := by
  refine ⟨by decide, by decide⟩

/-! ## Sanitizer lemmas -/

theorem sanitizePairs_eq_map (fs : List (String × JSValue)) :
    SecurityManager.sanitizePairs fs =
      fs.map (fun p => (p.1, SecurityManager.sanitizeEntry p.2)) := by
  induction fs with
  | nil => rfl
  | cons p rest ih =>
    obtain ⟨k, v⟩ := p
    simp [SecurityManager.sanitizePairs, ih]

theorem sanitizeIdx_eq_pairs_enumStr (xs : List JSValue) (i : Nat) :
    SecurityManager.sanitizeIdx i xs = SecurityManager.sanitizePairs (enumStr i xs) := by
  induction xs generalizing i with
  | nil => rfl
  | cons v rest ih =>
    simp [SecurityManager.sanitizeIdx, enumStr, SecurityManager.sanitizePairs, ih]

/-- Claim C10: the bodies of POST, PUT and PATCH pass through
sanitizeObject, which escapes every string value, passes numbers,
booleans and null through unchanged, recurses into nested objects, and
turns every array into a plain object keyed by the decimal index strings
of the array positions; the concrete conjunct shows the actual HTML
escaping. -/
theorem c10_sanitizer_shape :
    (∀ (endpoint : String) (d : JSValue),
        (APIService.post endpoint d).body = SecurityManager.sanitizeObject d
      ∧ (APIService.put endpoint d).body = SecurityManager.sanitizeObject d
      ∧ (APIService.patch endpoint d).body = SecurityManager.sanitizeObject d)
  ∧ (∀ fs, SecurityManager.sanitizeObject (.obj fs) =
        .obj (fs.map (fun p => (p.1, SecurityManager.sanitizeEntry p.2))))
  ∧ (∀ s, SecurityManager.sanitizeEntry (.str s) = .str (SecurityManager.sanitizeHTML s))
  ∧ (∀ n, SecurityManager.sanitizeEntry (.num n) = .num n)
  ∧ (∀ b, SecurityManager.sanitizeEntry (.bool b) = .bool b)
  ∧ SecurityManager.sanitizeEntry .null = .null
  ∧ (∀ fs, SecurityManager.sanitizeEntry (.obj fs) = SecurityManager.sanitizeObject (.obj fs))
  ∧ (∀ xs, SecurityManager.sanitizeObject (.arr xs) =
        SecurityManager.sanitizeObject (.obj (enumStr 0 xs)))
  ∧ SecurityManager.sanitizeHTML "<b>1 & 2</b>" = "&lt;b&gt;1 &amp; 2&lt;/b&gt;" := by
  refine ⟨fun endpoint d => ⟨rfl, rfl, rfl⟩, ?_, fun s => rfl, fun n => rfl, fun b => rfl,
    rfl, fun fs => rfl, ?_, by decide⟩
  · intro fs
    simp [SecurityManager.sanitizeObject, sanitizePairs_eq_map]
  · intro xs
    simp [SecurityManager.sanitizeObject, sanitizeIdx_eq_pairs_enumStr]

/-- Claim C1: an endpoint answering 500 on the first three attempts and
200 on the fourth yields success after exactly three retries (four
fetches in total) with the linear backoff delays 1000, 2000 and 3000
milliseconds; an endpoint always answering 500 surfaces the server error
after exactly three retries (four fetches), never more. -/
theorem c1_retry_ceiling (responses : Nat → FetchOutcome) (br : Browser)
    (d0 d1 d2 d3 : JSValue)
    (h0 : responses 0 = .reply 500 d0) (h1 : responses 1 = .reply 500 d1)
    (h2 : responses 2 = .reply 500 d2) (h3 : responses 3 = .reply 200 d3) :
    APIService.makeRequest responses br 0 =
      { result := .ok { data := d3, status := 200 }, browser := br,
        delaysMs := [1000, 2000, 3000], fetches := 4 }
  ∧ ∀ (responses2 : Nat → FetchOutcome) (br2 : Browser) (dd : Nat → JSValue),
      (∀ i, responses2 i = .reply 500 (dd i)) →
      APIService.makeRequest responses2 br2 0 =
        { result := .error (.serverError (dataMessage (dd 3) serverErrorMsg)),
          browser := br2, delaysMs := [1000, 2000, 3000], fetches := 4 } := by
  constructor
  · simp [APIService.makeRequest, APIService.makeRequestAux, h0, h1, h2, h3,
      APIService.withRetry, APIService.caughtStep, APIService.retryAttempts,
      APIService.retryDelay]
  · intro responses2 br2 dd hall
    simp [APIService.makeRequest, APIService.makeRequestAux, hall 0, hall 1, hall 2, hall 3,
      APIService.withRetry, APIService.caughtStep, APIService.retryAttempts,
      APIService.retryDelay]

/-- Witness for C1: a concrete endpoint giving 500 three times and then
200. -/
theorem c1_retry_ceiling_witness :
    APIService.makeRequest
      (fun i => if i < 3 then .reply 500 .null else .reply 200 (JSValue.str "ok"))
      ⟨[], [], "/subscription.html", ""⟩ 0 =
      { result := .ok { data := JSValue.str "ok", status := 200 },
        browser := ⟨[], [], "/subscription.html", ""⟩,
        delaysMs := [1000, 2000, 3000], fetches := 4 } :=
  (c1_retry_ceiling
    (fun i => if i < 3 then .reply 500 .null else .reply 200 (JSValue.str "ok"))
    ⟨[], [], "/subscription.html", ""⟩ .null .null .null (JSValue.str "ok")
    rfl rfl rfl rfl).1

/-- Claim C4 counterexample: the legacy API service of unnamed/part_007,
handling a 401 on a public pathname, clears the token and redirects to
the login page anyway, while the claim requires that a 401 on a public
route never forces a redirect or clears the token. -/
theorem c4_unauthorized_counterexample :
    APIService.isProtectedRoute "/index.html" = false
  ∧ (LegacyAPIService.makeRequest (fun _ => .reply 401 .null)
      ⟨[(CONFIG.TOKEN_KEY, "tok"), (CONFIG.TOKEN_EXPIRY_KEY, "99")], [],
        "/index.html", "/index.html"⟩ 0).browser.href = "/pages/login.html"
  ∧ getItem (LegacyAPIService.makeRequest (fun _ => .reply 401 .null)
      ⟨[(CONFIG.TOKEN_KEY, "tok"), (CONFIG.TOKEN_EXPIRY_KEY, "99")], [],
        "/index.html", "/index.html"⟩ 0).browser.sessionStore CONFIG.TOKEN_KEY = none
  ∧ (LegacyAPIService.makeRequest (fun _ => .reply 401 .null)
      ⟨[(CONFIG.TOKEN_KEY, "tok"), (CONFIG.TOKEN_EXPIRY_KEY, "99")], [],
        "/index.html", "/index.html"⟩ 0).result =
      Except.error ApiError.sessionExpired := by
  refine ⟨by decide, rfl, rfl, rfl⟩

/-- Claim C4 as amended: every 401 raises the session-expired error after
one fetch with no retry; in the updated API service of unnamed/part_006
the token-clearing and redirect side effect happens exactly when the
pathname names a protected page, while the legacy API service of
unnamed/part_007 clears the token and redirects on every 401. -/
theorem c4_unauthorized_amended (responses : Nat → FetchOutcome) (br : Browser)
    (d : JSValue) (h : responses 0 = .reply 401 d) :
    APIService.makeRequest responses br 0 =
      { result := .error .sessionExpired,
        browser := if APIService.isProtectedRoute br.pathname then
            { SecurityManager.clearToken br with href := "./login.html" }
          else br,
        delaysMs := [], fetches := 1 }
  ∧ LegacyAPIService.makeRequest responses br 0 =
      { result := .error .sessionExpired,
        browser := { SecurityManager.clearToken br with href := "/pages/login.html" },
        delaysMs := [], fetches := 1 } := by
  constructor
  · simp [APIService.makeRequest, APIService.makeRequestAux, h, APIService.retryAttempts]
  · simp [LegacyAPIService.makeRequest, LegacyAPIService.makeRequestAux, h,
      APIService.retryAttempts]

/-- Witness for C4 as amended, on a protected pathname. -/
theorem c4_unauthorized_amended_witness :
    APIService.makeRequest (fun _ => .reply 401 .null)
      ⟨[(CONFIG.TOKEN_KEY, "tok")], [], "/profile.html", "/profile.html"⟩ 0 =
      { result := .error .sessionExpired,
        browser := if APIService.isProtectedRoute
            (⟨[(CONFIG.TOKEN_KEY, "tok")], [], "/profile.html", "/profile.html"⟩ : Browser).pathname then
            { SecurityManager.clearToken
                ⟨[(CONFIG.TOKEN_KEY, "tok")], [], "/profile.html", "/profile.html"⟩ with
              href := "./login.html" }
          else ⟨[(CONFIG.TOKEN_KEY, "tok")], [], "/profile.html", "/profile.html"⟩,
        delaysMs := [], fetches := 1 } :=
  (c4_unauthorized_amended (fun _ => .reply 401 .null)
    ⟨[(CONFIG.TOKEN_KEY, "tok")], [], "/profile.html", "/profile.html"⟩ .null rfl).1

/-- Claim C2: one verification round classifies the response status.
Success renders the success view, deletes both pending payment entries
and reloads the subscription; pending renders the processing view and
schedules the next round after 5000 milliseconds without touching
storage; every other status string renders failure and deletes both
entries; and a thrown transport or classification error renders the
distinct verification-error view and leaves the pending payment entries
alone. -/
theorem c2_verify_payment_status (store : Storage) (data : JSValue)
    (e : ApiError) (s : String) :
    (jsGet data "status" = some (.str "success") →
      Subscription.verifyPaymentStatus (.ok data) store =
        { view := .success (SecurityManager.sanitizeHTML
            (dataMessage data "Your subscription has been activated.")),
          storage := removeItem (removeItem store Subscription.PENDING_REF_KEY)
            Subscription.PENDING_PLAN_KEY,
          nextPollMs := none, graceDelayMs := 2000, reloadedSubscription := true })
  ∧ (jsGet data "status" = some (.str "pending") →
      Subscription.verifyPaymentStatus (.ok data) store =
        { view := .processing (SecurityManager.sanitizeHTML
            (dataMessage data "Waiting for payment confirmation...")),
          storage := store, nextPollMs := some 5000, graceDelayMs := 2000,
          reloadedSubscription := false })
  ∧ (jsGet data "status" = some (.str s) → s ≠ "success" → s ≠ "pending" →
      Subscription.verifyPaymentStatus (.ok data) store =
        { view := .failed (SecurityManager.sanitizeHTML
            (dataMessage data "Your payment could not be processed.")),
          storage := removeItem (removeItem store Subscription.PENDING_REF_KEY)
            Subscription.PENDING_PLAN_KEY,
          nextPollMs := none, graceDelayMs := 2000, reloadedSubscription := false })
  ∧ Subscription.verifyPaymentStatus (.error e) store =
      { view := .verifyError, storage := store, nextPollMs := none,
        graceDelayMs := 2000, reloadedSubscription := false } := by
  refine ⟨?_, ?_, ?_, rfl⟩
  · intro hst
    have hobj : jsTruthy data = true := by
      cases data <;> simp_all [jsGet, jsTruthy]
    simp [Subscription.verifyPaymentStatus, hobj, hst]
  · intro hst
    have hobj : jsTruthy data = true := by
      cases data <;> simp_all [jsGet, jsTruthy]
    simp [Subscription.verifyPaymentStatus, hobj, hst]
  · intro hst hs1 hs2
    have hobj : jsTruthy data = true := by
      cases data <;> simp_all [jsGet, jsTruthy]
    have hb1 : (s == "success") = false := beq_eq_false_iff_ne.mpr hs1
    have hb2 : (s == "pending") = false := beq_eq_false_iff_ne.mpr hs2
    simp [Subscription.verifyPaymentStatus, hobj, hst, hb1, hb2]

/-- Witness for C2 at a concrete success response with pending payment
entries in place. -/
theorem c2_verify_payment_status_witness :
    Subscription.verifyPaymentStatus
      (.ok (JSValue.obj [("status", JSValue.str "success")]))
      [(Subscription.PENDING_REF_KEY, "r"), (Subscription.PENDING_PLAN_KEY, "monthly")] =
      { view := .success (SecurityManager.sanitizeHTML
          (dataMessage (JSValue.obj [("status", JSValue.str "success")])
            "Your subscription has been activated.")),
        storage := removeItem (removeItem
          [(Subscription.PENDING_REF_KEY, "r"), (Subscription.PENDING_PLAN_KEY, "monthly")]
          Subscription.PENDING_REF_KEY) Subscription.PENDING_PLAN_KEY,
        nextPollMs := none, graceDelayMs := 2000, reloadedSubscription := true } :=
  (c2_verify_payment_status
    [(Subscription.PENDING_REF_KEY, "r"), (Subscription.PENDING_PLAN_KEY, "monthly")]
    (JSValue.obj [("status", JSValue.str "success")]) .timeout "x").1 rfl

/-- Claim C3 counterexample: the legacy initiatePayment of
unnamed/part_005, given a successful response that carries an
authorization URL but no reference, persists a pending payment entry (the
string coercion of undefined) and schedules the navigation anyway, while
the claim requires that the absence of a reference is a hard error with
no persistence and no navigation. -/
theorem c3_initiate_counterexample :
    (Subscription.legacyInitiatePaymentOnResponse
      (.ok (JSValue.obj [("authorization_url", JSValue.str "https://pay.example")]))
      "monthly" []).navTarget = some "https://pay.example"
  ∧ getItem (Subscription.legacyInitiatePaymentOnResponse
      (.ok (JSValue.obj [("authorization_url", JSValue.str "https://pay.example")]))
      "monthly" []).storage Subscription.PENDING_REF_KEY = some "undefined"
  ∧ getItem (Subscription.legacyInitiatePaymentOnResponse
      (.ok (JSValue.obj [("authorization_url", JSValue.str "https://pay.example")]))
      "monthly" []).storage Subscription.PENDING_PLAN_KEY = some "monthly"
  ∧ (Subscription.legacyInitiatePaymentOnResponse
      (.ok (JSValue.obj [("authorization_url", JSValue.str "https://pay.example")]))
      "monthly" []).errorMsg = none := by
  refine ⟨rfl, rfl, rfl, rfl⟩

/-- Claim C3 as amended: the updated initiatePayment of
js/subscription.js sends the plan lowercased, the country uppercased and
the boolean flag, treats a missing authorization URL or a missing
reference in a successful response as a hard error that persists nothing
and navigates nowhere, and on both being present persists the pending
payment reference and plan and schedules the navigation after 1000
milliseconds; the legacy initiatePayment of unnamed/part_005 sends plan
and country exactly as given and checks only the authorization URL, so a
missing reference is persisted as the string coercion of undefined and
the navigation still happens. -/
theorem c3_initiate_amended (plan country : String) (auto : Bool) (store : Storage)
    (data : JSValue) (uv rv : JSValue) :
    Subscription.initiatePaymentBody plan country auto =
      { plan := jsToLower plan, country_code := jsToUpper country, enable_auto_renew := auto }
  ∧ Subscription.initiatePaymentBody "Monthly" "ng" true =
      { plan := "monthly", country_code := "NG", enable_auto_renew := true }
  ∧ Subscription.legacyInitiatePaymentBody "Monthly" "ng" true =
      { plan := "Monthly", country_code := "ng", enable_auto_renew := true }
  ∧ (jsTruthy data = true →
      optTruthy (jsOrVal (jsGet data "authorization_url") (jsGet data "authorizationUrl")) = false →
      Subscription.initiatePaymentOnResponse (.ok data) plan store =
        { storage := store, navTarget := none, navDelayMs := 0,
          errorMsg := some "No authorization URL received from payment provider" })
  ∧ (jsTruthy data = true →
      jsOrVal (jsGet data "authorization_url") (jsGet data "authorizationUrl") = some uv →
      jsTruthy uv = true →
      optTruthy (jsOrVal (jsGet data "reference") (jsGet data "payment_reference")) = false →
      Subscription.initiatePaymentOnResponse (.ok data) plan store =
        { storage := store, navTarget := none, navDelayMs := 0,
          errorMsg := some "No payment reference received" })
  ∧ (jsTruthy data = true →
      jsOrVal (jsGet data "authorization_url") (jsGet data "authorizationUrl") = some uv →
      jsTruthy uv = true →
      jsOrVal (jsGet data "reference") (jsGet data "payment_reference") = some rv →
      jsTruthy rv = true →
      Subscription.initiatePaymentOnResponse (.ok data) plan store =
        { storage := setItem (setItem store Subscription.PENDING_REF_KEY (jsCoerceString rv))
            Subscription.PENDING_PLAN_KEY plan,
          navTarget := some (jsCoerceString uv), navDelayMs := 1000, errorMsg := none })
  ∧ (jsTruthy data = true →
      jsGet data "authorization_url" = some uv →
      jsTruthy uv = true →
      jsGet data "reference" = none →
      Subscription.legacyInitiatePaymentOnResponse (.ok data) plan store =
        { storage := setItem (setItem store Subscription.PENDING_REF_KEY "undefined")
            Subscription.PENDING_PLAN_KEY plan,
          navTarget := some (jsCoerceString uv), navDelayMs := 1000, errorMsg := none }) := by
  refine ⟨rfl, by decide, by decide, ?_, ?_, ?_, ?_⟩
  · intro hd hu
    simp [Subscription.initiatePaymentOnResponse, hd, hu]
  · intro hd hu hut hr
    rcases hv : jsOrVal (jsGet data "reference") (jsGet data "payment_reference") with _ | v
    · simp [Subscription.initiatePaymentOnResponse, hd, hu, hut, hv, optTruthy]
    · rw [hv] at hr
      simp only [optTruthy] at hr
      simp [Subscription.initiatePaymentOnResponse, hd, hu, hut, hv, hr, optTruthy]
  · intro hd hu hut hr hrt
    simp [Subscription.initiatePaymentOnResponse, hd, hu, hut, hr, hrt, optTruthy]
  · intro hd hu hut hr
    simp [Subscription.legacyInitiatePaymentOnResponse, hd, hu, hut, hr, optTruthy]

/-- Witness for C3 as amended: a response carrying both the authorization
URL and the reference persists the pending payment and schedules the
navigation. -/
theorem c3_initiate_amended_witness :
    Subscription.initiatePaymentOnResponse
      (.ok (JSValue.obj [("authorization_url", JSValue.str "https://checkout.example"),
        ("reference", JSValue.str "ref123")])) "monthly" [] =
      { storage := setItem (setItem [] Subscription.PENDING_REF_KEY
          (jsCoerceString (JSValue.str "ref123"))) Subscription.PENDING_PLAN_KEY "monthly",
        navTarget := some (jsCoerceString (JSValue.str "https://checkout.example")),
        navDelayMs := 1000, errorMsg := none } :=
  (c3_initiate_amended "monthly" "NG" true []
    (JSValue.obj [("authorization_url", JSValue.str "https://checkout.example"),
      ("reference", JSValue.str "ref123")])
    (JSValue.str "https://checkout.example") (JSValue.str "ref123")).2.2.2.2.2.1
    rfl rfl rfl rfl rfl
